import Mathlib

/-!
Shallow embedding of the rate-cache / wallet-ledger core of the
valutatrade_hub repository (src/valutatrade_hub), covering:

  * core/usecases.py: _normalize_currency_code, _load_rates, _get_rate,
    _load_user_portfolio, _save_user_wallet_balance,
    _validate_amount_positive, buy_currency, sell_currency,
    _parse_iso_dt, _is_fresh, get_rate_with_cache
  * parser_service/storage.py: load_snapshot, upsert_snapshot_pair,
    RatesStorage.write_cache
  * parser_service/updater.py: RatesUpdater.run_update
  * core/exceptions.py: the error taxonomy

Modelling conventions:
  * JSON values are the inductive `Json`; Python dicts are association
    lists with insertion-order-preserving update, matching Python 3.7+
    dict semantics (update-in-place keeps position, new key appends).
  * Python floats are modelled as rationals (ℚ); the arithmetic the
    claims exercise is +, -, *, / and comparisons on small values.
  * File I/O is threaded explicitly: a function that reads a store takes
    its current JSON content as an argument, a function that writes
    returns the written content.  Ledger operations return the ordered
    list of persisted portfolio-store states (`writes`), so that
    "byte-for-byte unchanged" is `writes = []` and "single write" is
    `writes.length = 1`.  A raised Python exception is `Except.error`;
    writes performed before the raise are still reported.
  * `datetime.now()` is threaded as two parameters: `now : Int` (seconds
    on the proleptic-Gregorian timeline, as compared by
    `datetime - datetime`) and `nowStr : String` (the value of
    `datetime.now().isoformat(timespec="seconds")`).
  * `datetime.fromisoformat` is modelled on the canonical
    "YYYY-MM-DDTHH:MM:SS" form - exactly the form the core service
    itself writes via `isoformat(timespec="seconds")`; other forms
    parse to `none`.
  * `SettingsLoader` (only consulted when `max_age_seconds` is None) is
    outside the embedding: `max_age_seconds` is always passed.
-/

namespace ValutaTrade

/-- JSON values (`json.loads` output).  Objects keep key order, as
Python dicts do. -/
inductive Json where
  | null : Json
  | boolean : Bool → Json
  | num : ℚ → Json
  | str : String → Json
  | arr : List Json → Json
  | obj : List (String × Json) → Json

/-- Python `d.get(k)` on a dict represented as an association list:
first (only, for well-formed dicts) binding wins. -/
def alget {α : Type} : List (String × α) → String → Option α
  | [], _ => none
  | (k, v) :: rest, key => if k = key then some v else alget rest key

/-- Python `d[k] = v`: replace in place if the key exists (keeping its
position), else append - Python 3.7+ dict semantics. -/
def alset {α : Type} : List (String × α) → String → α → List (String × α)
  | [], key, v => [(key, v)]
  | (k, w) :: rest, key, v =>
      if k = key then (k, v) :: rest else (k, w) :: alset rest key v

/-- The error taxonomy of core/exceptions.py plus the ValueError /
TypeError cases the use-cases raise.  Message-only errors are given
structured payloads carrying exactly the data interpolated into the
Python message. -/
inductive Err where
  /-- `CurrencyNotFoundError(code)` -/
  | currencyNotFound : String → Err
  /-- `InsufficientFundsError(available, required, code)` -/
  | insufficientFunds : ℚ → ℚ → String → Err
  /-- `ApiRequestError` raised by get_rate_with_cache for pair from→to -/
  | apiRequest : String → String → Err
  /-- `ApiRequestError` raised by run_update when every source failed -/
  | allSourcesFailed : Err
  /-- `ValueError` raised by buy/sell when the rate for from→to fails -/
  | rateFetchFailed : String → String → Err
  /-- `ValueError` in sell_currency: no wallet for the code -/
  | noWallet : String → Err
  /-- `ValueError`/`TypeError` of _validate_amount_positive -/
  | invalidAmount : Err
  /-- `ValueError` on empty currency code in _normalize_currency_code -/
  | emptyCurrencyCode : Err
  /-- `ValueError` for a persisted store violating its schema -/
  | malformedStore : String → Err
  /-- `ValueError` of upsert_snapshot_pair: rate must be positive -/
  | invalidRateValue : Err
  /-- `ValueError` of upsert_snapshot_pair: updated_at must be non-empty -/
  | invalidUpdatedAt : Err
  /-- `ValueError` of upsert_snapshot_pair: source must be non-empty -/
  | invalidSource : Err
deriving DecidableEq

/-- ASCII whitespace (the characters `str.strip()` removes; the
relevant inputs are ASCII). -/
def pyIsSpace (c : Char) : Bool := c.toNat = 32 ∨ (9 ≤ c.toNat ∧ c.toNat ≤ 13)

/-- `str.strip()`: drop leading and trailing whitespace. -/
def pyStrip (s : String) : String :=
  String.mk (((s.data.dropWhile pyIsSpace).reverse.dropWhile
    pyIsSpace).reverse)

/-- `str.upper()` on a character (ASCII; the currency codes in play are
ASCII). -/
def pyCharUpper (c : Char) : Char :=
  if 97 ≤ c.toNat ∧ c.toNat ≤ 122 then Char.ofNat (c.toNat - 32) else c

/-- `str.upper()`. -/
def pyUpper (s : String) : String := String.mk (s.data.map pyCharUpper)

/-- Python `<` on strings: lexicographic by Unicode code point, a
proper prefix ordering before its extensions. -/
def pyStrLtList : List Char → List Char → Bool
  | [], [] => false
  | [], _ :: _ => true
  | _ :: _, [] => false
  | a :: as, b :: bs =>
      if a.toNat < b.toNat then true
      else if b.toNat < a.toNat then false
      else pyStrLtList as bs

/-- Python `a < b` on strings. -/
def pyStrLt (a b : String) : Bool := pyStrLtList a.data b.data

/-- core/usecases.py `_normalize_currency_code`: strip, upper, reject
empty.  (The `isinstance(code, str)` check is enforced by typing.) -/
def normalize_currency_code (code : String) : Except Err String :=
  let value := pyUpper (pyStrip code)
  if value = "" then .error .emptyCurrencyCode else .ok value

/-- Days from 1970-01-01 for a valid proleptic-Gregorian date with
year ≥ 1 (Howard Hinnant's civil-days algorithm, all-Nat since the
validated year is positive), offset so the result is a plain Nat. -/
def daysFromCivil (y m d : Nat) : Nat :=
  let y' := if m ≤ 2 then y - 1 else y
  let era := y' / 400
  let yoe := y' % 400
  let mp := (m + 9) % 12
  let doy := (153 * mp + 2) / 5 + d - 1
  let doe := yoe * 365 + yoe / 4 - yoe / 100 + doy
  era * 146097 + doe

/-- Last day of a month in the proleptic Gregorian calendar. -/
def daysInMonth (y m : Nat) : Nat :=
  if m = 2 then
    if y % 4 = 0 ∧ (y % 100 ≠ 0 ∨ y % 400 = 0) then 29 else 28
  else if m = 4 ∨ m = 6 ∨ m = 9 ∨ m = 11 then 30
  else 31

def digitVal (c : Char) : Nat := c.toNat - 48

def isDigit (c : Char) : Bool := c.isDigit

/-- core/usecases.py `_parse_iso_dt` via `datetime.fromisoformat`,
modelled on the canonical "YYYY-MM-DDTHH:MM:SS" form (the exact form
`now_iso` / `isoformat(timespec="seconds")` produces); the result is the
timestamp in seconds on the timeline `datetime` subtraction measures.
OtherShapes parse to `none` (as an `''.strip()` / ValueError does). -/
def parse_iso_dt (s : String) : Option Int :=
  match s.toList with
  | [y1, y2, y3, y4, '-', m1, m2, '-', d1, d2, 'T',
     h1, h2, ':', n1, n2, ':', s1, s2] =>
      if isDigit y1 ∧ isDigit y2 ∧ isDigit y3 ∧ isDigit y4 ∧
         isDigit m1 ∧ isDigit m2 ∧ isDigit d1 ∧ isDigit d2 ∧
         isDigit h1 ∧ isDigit h2 ∧ isDigit n1 ∧ isDigit n2 ∧
         isDigit s1 ∧ isDigit s2 then
        let y := 1000 * digitVal y1 + 100 * digitVal y2 +
                 10 * digitVal y3 + digitVal y4
        let mo := 10 * digitVal m1 + digitVal m2
        let d := 10 * digitVal d1 + digitVal d2
        let h := 10 * digitVal h1 + digitVal h2
        let mi := 10 * digitVal n1 + digitVal n2
        let se := 10 * digitVal s1 + digitVal s2
        if 1 ≤ y ∧ 1 ≤ mo ∧ mo ≤ 12 ∧ 1 ≤ d ∧ d ≤ daysInMonth y mo ∧
           h ≤ 23 ∧ mi ≤ 59 ∧ se ≤ 59 then
          some (((daysFromCivil y mo d) * 86400 + h * 3600 + mi * 60 + se :
                 Nat) : Int)
        else none
      else none
  | _ => none

/-- core/usecases.py `_is_fresh`: parse `updated_at`; unparsable is not
fresh; otherwise fresh iff `now - dt ≤ max_age_seconds`
(`datetime.now()` is the threaded `now`). -/
def is_fresh (now : Int) (updated_at_iso : String) (max_age_seconds : Int) :
    Bool :=
  match parse_iso_dt updated_at_iso with
  | none => false
  | some dt => decide (now - dt ≤ max_age_seconds)

/-- core/usecases.py `_load_rates`: the rates.json content must be a
JSON object (a missing or empty file is the default `{}`, i.e.
`Json.obj []`). -/
def load_rates (ratesFile : Json) : Except Err (List (String × Json)) :=
  match ratesFile with
  | .obj entries => .ok entries
  | _ => .error (.malformedStore "rates.json must contain an object")

/-- The hard-coded stub table of core/usecases.py `_get_rate`
("1 unit of currency = this many USD"). -/
def to_usd : List (String × ℚ) :=
  [("USD", 1), ("EUR", 1.07), ("BTC", 59337.21), ("RUB", 0.01016),
   ("ETH", 3720)]

/-- core/usecases.py `_get_rate`: normalize both codes; `1.0` when they
are equal; otherwise try the flat `FROM_TO` key of rates.json (a dict
entry with a positive numeric `"rate"` - no freshness check); otherwise
fall back to the hard-coded `to_usd` stub table, raising
`CurrencyNotFoundError` for codes outside it. -/
def get_rate (ratesFile : Json) (from_code to_code : String) :
    Except Err ℚ :=
  match normalize_currency_code from_code with
  | .error e => .error e
  | .ok f =>
  match normalize_currency_code to_code with
  | .error e => .error e
  | .ok t =>
  if f = t then .ok 1
  else
    match load_rates ratesFile with
    | .error e => .error e
    | .ok rates =>
      let fromCache : Option ℚ :=
        match alget rates (f ++ "_" ++ t) with
        | some (.obj kvs) =>
            match alget kvs "rate" with
            | some (.num q) => if 0 < q then some q else none
            | _ => none
        | _ => none
      match fromCache with
      | some q => .ok q
      | none =>
        if t = "USD" then
          match alget to_usd f with
          | none => .error (.currencyNotFound f)
          | some v => .ok v
        else
          match alget to_usd t with
          | none => .error (.currencyNotFound t)
          | some vt =>
            match alget to_usd f with
            | none => .error (.currencyNotFound f)
            | some vf => .ok (vf / vt)

/-- The result record of get_rate_with_cache. -/
structure RateResult where
  fromCode : String
  toCode : String
  rate : ℚ
  updated_at : String
  reverse_rate : ℚ
deriving DecidableEq

/-- The direct-cache test of get_rate_with_cache (usecases.py lines
440-444): the cached value must be a dict with a numeric `"rate"` and a
string `"updated_at"`, the rate positive and the timestamp fresh.
Returns the accepted (rate, updated_at). -/
def cachedFresh (now max_age_seconds : Int) (cached : Option Json) :
    Option (ℚ × String) :=
  match cached with
  | some (.obj kvs) =>
      match alget kvs "rate", alget kvs "updated_at" with
      | some (.num q), some (.str u) =>
          if 0 < q ∧ is_fresh now u max_age_seconds then some (q, u)
          else none
      | _, _ => none
  | _ => none

/-- The rates.json content get_rate_with_cache writes on the fallback
path (usecases.py lines 462-469): the flat pair entry refreshed with
`nowStr`, plus the top-level service metadata `"source" = "Stub"` and
`"last_refresh" = nowStr`. -/
def refreshedRates (rates : List (String × Json)) (pair : String)
    (rate : ℚ) (nowStr : String) : Json :=
  .obj (alset (alset (alset rates pair
    (.obj [("rate", .num rate), ("updated_at", .str nowStr)]))
    "source" (.str "Stub")) "last_refresh" (.str nowStr))

/-- core/usecases.py `get_rate_with_cache`: normalize; read the flat
`FROM_TO` key of rates.json; if it is a fresh valid entry answer from it
(no write); otherwise fall back to `_get_rate` (re-raising
`CurrencyNotFoundError`, wrapping any other failure as
`ApiRequestError`), then write the refreshed snapshot (flat pair entry
plus top-level `"source" = "Stub"` and `"last_refresh"`) back to
rates.json.  The returned list is the persisted rates.json states, in
order. -/
def get_rate_with_cache (now : Int) (nowStr : String) (ratesFile : Json)
    (from_code to_code : String) (max_age_seconds : Int) :
    Except Err (List Json × RateResult) :=
  match normalize_currency_code from_code with
  | .error e => .error e
  | .ok f =>
  match normalize_currency_code to_code with
  | .error e => .error e
  | .ok t =>
  let pair := f ++ "_" ++ t
  match load_rates ratesFile with
  | .error e => .error e
  | .ok rates =>
  match cachedFresh now max_age_seconds (alget rates pair) with
  | some (q, u) =>
      .ok ([], { fromCode := f, toCode := t, rate := q, updated_at := u,
                 reverse_rate := 1 / q })
  | none =>
  match get_rate ratesFile f t with
  | .error (.currencyNotFound c) => .error (.currencyNotFound c)
  | .error _ => .error (.apiRequest f t)
  | .ok rate =>
    let reverse_rate : ℚ := if rate ≠ 0 then 1 / rate else 0
    .ok ([refreshedRates rates pair rate nowStr],
         { fromCode := f, toCode := t, rate := rate,
           updated_at := nowStr, reverse_rate := reverse_rate })

/-! ## parser_service/storage.py -/

/-- The normalized snapshot `load_snapshot` returns. -/
structure Snapshot where
  pairs : List (String × Json)
  last_refresh : Option String

/-- parser_service/storage.py `load_snapshot`: a missing file (`none`)
is the empty snapshot; otherwise the content must be an object, its
`"pairs"` (absent or JSON null meaning empty) an object, and its
`"last_refresh"` absent, null or a string. -/
def load_snapshot : Option Json → Except Err Snapshot
  | none => .ok { pairs := [], last_refresh := none }
  | some (.obj entries) =>
      match alget entries "pairs" with
      | none => loadLastRefresh entries []
      | some .null => loadLastRefresh entries []
      | some (.obj p) => loadLastRefresh entries p
      | some _ =>
          .error (.malformedStore "rates.json: pairs must be an object")
  | some _ => .error (.malformedStore "rates.json must contain an object")
where
  loadLastRefresh (entries : List (String × Json))
      (p : List (String × Json)) : Except Err Snapshot :=
    match alget entries "last_refresh" with
    | none => .ok { pairs := p, last_refresh := none }
    | some .null => .ok { pairs := p, last_refresh := none }
    | some (.str s) => .ok { pairs := p, last_refresh := some s }
    | some _ =>
        .error
          (.malformedStore "rates.json: last_refresh must be string or null")

/-- The entry `upsert_snapshot_pair` stores for a pair. -/
def pairEntry (rate : ℚ) (updated_at source : String) : Json :=
  .obj [("rate", .num rate), ("updated_at", .str updated_at),
        ("source", .str source)]

/-- The file content a changing `upsert_snapshot_pair` writes:
`{"pairs": ..., "last_refresh": updated_at}` (load_snapshot returns a
fresh two-key dict, so no other top-level keys survive). -/
def writtenSnapshot (pairs : List (String × Json)) (updated_at : String) :
    Json :=
  .obj [("pairs", .obj pairs), ("last_refresh", .str updated_at)]

/-- parser_service/storage.py `upsert_snapshot_pair`: load the
snapshot, validate the inputs, then write the pair if it is absent (or
its stored entry is malformed), or replace it exactly when `updated_at`
is strictly newer than the stored `updated_at` in Python string order;
on a change the file `{"pairs": ..., "last_refresh": updated_at}` is
written atomically.  Returns `(changed, written file if changed)`. -/
def upsert_snapshot_pair (file : Option Json) (pair : String) (rate : ℚ)
    (updated_at source : String) : Except Err (Bool × Option Json) :=
  match load_snapshot file with
  | .error e => .error e
  | .ok snap =>
  if ¬ 0 < rate then .error .invalidRateValue
  else if pyStrip updated_at = "" then .error .invalidUpdatedAt
  else if pyStrip source = "" then .error .invalidSource
  else
    let changed : Bool :=
      match alget snap.pairs pair with
      | some (.obj okvs) =>
          match alget okvs "updated_at" with
          | some (.str old_updated) => pyStrLt old_updated updated_at
          | _ => true
      | some _ => true
      | none => true
    if changed then
      .ok (true, some (writtenSnapshot
        (alset snap.pairs pair (pairEntry rate updated_at source))
        updated_at))
    else .ok (false, none)

/-- The skip-filter of `RatesStorage.write_cache` (storage.py lines
168-183): a payload item is submitted to upsert only when it is a dict
whose pair key and `"source"`/`"updated_at"` strings are non-blank and
whose `"rate"` is a positive number. -/
def validCachePair (pair : String) (item : Json) :
    Option (ℚ × String × String) :=
  match item with
  | .obj kvs =>
      if pyStrip pair = "" then none
      else
        match alget kvs "rate", alget kvs "updated_at",
              alget kvs "source" with
        | some (.num q), some (.str u), some (.str src) =>
            if 0 < q ∧ pyStrip u ≠ "" ∧ pyStrip src ≠ "" then
              some (q, u, src)
            else none
        | _, _, _ => none
  | _ => none

/-- The per-pair loop of `write_cache`: each accepted item is upserted
against the current file state (the Python code re-reads the file in
every `upsert_snapshot_pair` call); `changed` results are counted. -/
def write_cache_loop :
    List (String × Json) → Option Json → Nat →
    Except Err (Nat × Option Json)
  | [], file, count => .ok (count, file)
  | (pair, item) :: rest, file, count =>
      match validCachePair pair item with
      | none => write_cache_loop rest file count
      | some (q, u, src) =>
          match upsert_snapshot_pair file pair q u src with
          | .error e => .error e
          | .ok (changed, written) =>
              write_cache_loop rest
                (match written with | some w => some w | none => file)
                (if changed then count + 1 else count)

/-- parser_service/storage.py `RatesStorage.write_cache`: submit every
valid item of `payload["pairs"]` to `upsert_snapshot_pair` and return
the number of pairs that actually changed, together with the final file
state. -/
def write_cache (file : Option Json) (payload : Json) :
    Except Err (Nat × Option Json) :=
  match payload with
  | .obj entries =>
      match (alget entries "pairs").getD (.obj []) with
      | .obj items => write_cache_loop items file 0
      | _ => .error (.malformedStore "payload pairs must be a dict")
  | _ => .error (.malformedStore "payload must be a dict")

/-! ## parser_service/updater.py -/

/-- Per-source entry of `sources_meta` (`error = some reason` for a
failed fetch, in which case `ok = false` and `count = 0`). -/
structure SourceMeta where
  ok : Bool
  errorMsg : Option String
  count : Nat
deriving DecidableEq

/-- `UpdateResult` of parser_service/updater.py. -/
structure UpdateResult where
  updated : Nat
  last_refresh : String
  sources : List (String × SourceMeta)
  had_errors : Bool
deriving DecidableEq

/-- JSON serialization of a sources_meta entry, with exactly the keys
the Python dicts carry. -/
def sourceMetaJson (m : SourceMeta) : Json :=
  match m.errorMsg with
  | some e => .obj [("ok", .boolean false), ("error", .str e),
                    ("count", .num 0)]
  | none => .obj [("ok", .boolean true), ("count", .num (m.count : ℚ))]

/-- The fetch phase of `run_update` (updater.py lines 51-81): fold over
the clients in order; a failed fetch contributes metadata only and sets
`had_errors`; a successful fetch merges every returned pair into
`combined` tagged with `refresh_ts` and the source name
(last-writer-in-batch wins). -/
def run_update_scan
    (clients : List (String × Except String (List (String × ℚ))))
    (refresh_ts : String) :
    List (String × Json) × List (String × SourceMeta) × Bool :=
  clients.foldl
    (fun acc c =>
      match c.2 with
      | .error msg =>
          (acc.1,
           acc.2.1 ++ [(c.1, { ok := false, errorMsg := some msg,
                               count := 0 })],
           true)
      | .ok rates =>
          (rates.foldl
             (fun comb pr =>
               alset comb pr.1 (.obj [("rate", .num pr.2),
                 ("updated_at", .str refresh_ts),
                 ("source", .str c.1)]))
             acc.1,
           acc.2.1 ++ [(c.1, { ok := true, errorMsg := none,
                               count := rates.length })],
           acc.2.2))
    ([], [], false)

/-- The payload `run_update` hands to `write_cache` (updater.py lines
88-92). -/
def run_update_payload (combined : List (String × Json))
    (sources_meta : List (String × SourceMeta)) (refresh_ts : String) :
    Json :=
  .obj [("pairs", .obj combined),
        ("last_refresh", .str refresh_ts),
        ("sources", .obj (sources_meta.map
          (fun m => (m.1, sourceMetaJson m.2))))]

/-- parser_service/updater.py `RatesUpdater.run_update`: fetch from
every client (a client is modelled by its fetch outcome: a pair map or
the `ApiRequestError` message), fail with `ApiRequestError` if nothing
was fetched, otherwise hand the combined payload to `write_cache`
(whose changed-count return value the Python code discards) and report
`updated = len(combined)`. -/
def run_update (file : Option Json)
    (clients : List (String × Except String (List (String × ℚ))))
    (refresh_ts : String) : Except Err (UpdateResult × Option Json) :=
  match run_update_scan clients refresh_ts with
  | (combined, sources_meta, had_errors) =>
    if combined.isEmpty then .error .allSourcesFailed
    else
      match write_cache file
          (run_update_payload combined sources_meta refresh_ts) with
      | .error e => .error e
      | .ok (_, newFile) =>
          .ok ({ updated := combined.length, last_refresh := refresh_ts,
                 sources := sources_meta, had_errors := had_errors },
               newFile)

/-! ## The wallet ledger (core/usecases.py) -/

/-- core/usecases.py `_load_portfolios`: portfolios.json must contain a
list (a missing or empty file is the default `[]`, i.e. `Json.arr []`). -/
def load_portfolios (pfFile : Json) : Except Err (List Json) :=
  match pfFile with
  | .arr records => .ok records
  | _ => .error (.malformedStore "portfolios.json must contain a list")

/-- Python `int(...)` on the JSON values a `user_id` field can carry
(numbers truncate toward zero; bools are 0/1).  Other shapes abort with
the exception `int()` raises. -/
def pyInt (j : Json) : Except Err Int :=
  match j with
  | .num q => .ok (Int.tdiv q.num (q.den : Int))
  | .boolean b => .ok (if b then 1 else 0)
  | _ => .error (.malformedStore "invalid user_id")

/-- `int(p.get("user_id", -1))`. -/
def recordUserId (kvs : List (String × Json)) : Except Err Int :=
  match alget kvs "user_id" with
  | none => .ok (-1)
  | some v => pyInt v

/-- `next((p for p in portfolios if int(p.get("user_id", -1)) == uid),
None)`: lazily scan for the first matching record (records after the
match are never inspected). -/
def findRecord : List Json → Int → Except Err (Option Json)
  | [], _ => .ok none
  | j :: rest, uid =>
      match j with
      | .obj kvs =>
          match recordUserId kvs with
          | .error e => .error e
          | .ok v =>
              if v = uid then .ok (some (.obj kvs))
              else findRecord rest uid
      | _ => .error (.malformedStore "portfolio record must be an object")

/-- The wallet loop of `_load_user_portfolio`: normalize each wallet
key, require a dict payload with a numeric `"balance"`, and accumulate
`result[c] = float(bal)` (a later duplicate of a normalized key
overwrites the earlier one, as in the Python dict). -/
def load_wallets :
    List (String × Json) → List (String × ℚ) →
    Except Err (List (String × ℚ))
  | [], acc => .ok acc
  | (code, payload) :: rest, acc =>
      match normalize_currency_code code with
      | .error e => .error e
      | .ok c =>
          match payload with
          | .obj pkvs =>
              match alget pkvs "balance" with
              | some (.num b) => load_wallets rest (alset acc c b)
              | _ => .error (.malformedStore ("Invalid balance for " ++ c))
          | _ => .error (.malformedStore ("Invalid balance for " ++ c))

/-- core/usecases.py `_load_user_portfolio`: the user's wallet map
(`{}` when the user has no record), validated. -/
def load_user_portfolio (pfFile : Json) (user_id : Int) :
    Except Err (List (String × ℚ)) :=
  match load_portfolios pfFile with
  | .error e => .error e
  | .ok records =>
      match findRecord records user_id with
      | .error e => .error e
      | .ok none => .ok []
      | .ok (some (.obj kvs)) =>
          match (alget kvs "wallets").getD (.obj []) with
          | .obj ws => load_wallets ws []
          | _ =>
              .error
                (.malformedStore "portfolios.json: wallets must be an object")
      | .ok (some _) =>
          .error (.malformedStore "portfolio record must be an object")

/-- The record update of `_save_user_wallet_balance`: find the user's
record in place (later records are left unscanned), require its
`"wallets"` to be a dict, normalize the code and set
`wallets[code] = {"balance": new_balance}`.  Returns the updated list
and whether a record was found. -/
def save_records :
    List Json → Int → String → ℚ → Except Err (List Json × Bool)
  | [], _, _, _ => .ok ([], false)
  | j :: rest, uid, currency_code, bal =>
      match j with
      | .obj kvs =>
          match recordUserId kvs with
          | .error e => .error e
          | .ok v =>
              if v = uid then
                match alget kvs "wallets" with
                | some (.obj ws) =>
                    match normalize_currency_code currency_code with
                    | .error e => .error e
                    | .ok c =>
                        .ok (Json.obj (alset kvs "wallets"
                          (.obj (alset ws c
                            (.obj [("balance", .num bal)])))) :: rest,
                          true)
                | _ =>
                    .error (.malformedStore
                      "portfolios.json: wallets must be an object")
              else
                match save_records rest uid currency_code bal with
                | .error e => .error e
                | .ok (rest', found) => .ok (j :: rest', found)
      | _ => .error (.malformedStore "portfolio record must be an object")

/-- core/usecases.py `_save_user_wallet_balance`: read the portfolio
store, update (or append) the user's record, and persist the whole
store.  Returns the written portfolios.json content. -/
def save_user_wallet_balance (pfFile : Json) (user_id : Int)
    (currency_code : String) (new_balance : ℚ) : Except Err Json :=
  match load_portfolios pfFile with
  | .error e => .error e
  | .ok records =>
      match save_records records user_id currency_code new_balance with
      | .error e => .error e
      | .ok (records', true) => .ok (.arr records')
      | .ok (_, false) =>
          match normalize_currency_code currency_code with
          | .error e => .error e
          | .ok c =>
              .ok (.arr (records ++
                [Json.obj [("user_id", .num (user_id : ℚ)),
                  ("wallets", .obj [(c, .obj [("balance",
                    .num new_balance)])])]]))

/-- core/usecases.py `_validate_amount_positive`. -/
def validate_amount_positive (amount : ℚ) : Except Err ℚ :=
  if amount ≤ 0 then .error .invalidAmount else .ok amount

/-- Result record of buy_currency. -/
structure BuyResult where
  currency : String
  amount : ℚ
  base : String
  rate : ℚ
  before : ℚ
  after : ℚ
  cost : ℚ
deriving DecidableEq

/-- Result record of sell_currency. -/
structure SellResult where
  currency : String
  amount : ℚ
  base : String
  rate : ℚ
  before : ℚ
  after : ℚ
  revenue : ℚ
deriving DecidableEq

/-- core/usecases.py `buy_currency`: validate, load the portfolio,
persist the increased balance, and only then resolve the rate (any
rate failure is wrapped in a ValueError after the deposit was already
persisted).  First component: the persisted portfolio-store states in
order. -/
def buy_currency (ratesFile pfFile : Json) (user_id : Int)
    (currency_code : String) (amount : ℚ) (base_currency : String) :
    List Json × Except Err BuyResult :=
  match normalize_currency_code currency_code with
  | .error e => ([], .error e)
  | .ok code =>
  match normalize_currency_code base_currency with
  | .error e => ([], .error e)
  | .ok base =>
  match validate_amount_positive amount with
  | .error e => ([], .error e)
  | .ok amt =>
  match load_user_portfolio pfFile user_id with
  | .error e => ([], .error e)
  | .ok wallets =>
  let before := (alget wallets code).getD 0
  let after := before + amt
  match save_user_wallet_balance pfFile user_id code after with
  | .error e => ([], .error e)
  | .ok pf1 =>
  match get_rate ratesFile code base with
  | .error _ => ([pf1], .error (.rateFetchFailed code base))
  | .ok rate =>
      ([pf1], .ok
        { currency := code, amount := amt, base := base, rate := rate,
          before := before, after := after, cost := amt * rate })

/-- core/usecases.py `sell_currency`: validate, check wallet existence
and sufficiency, persist the debited balance, resolve the rate (wrapped
failure leaves the debit persisted), and - when `code != base` - persist
the credited base balance in a second, separate store write.  First
component: the persisted portfolio-store states in order. -/
def sell_currency (ratesFile pfFile : Json) (user_id : Int)
    (currency_code : String) (amount : ℚ) (base_currency : String) :
    List Json × Except Err SellResult :=
  match normalize_currency_code currency_code with
  | .error e => ([], .error e)
  | .ok code =>
  match normalize_currency_code base_currency with
  | .error e => ([], .error e)
  | .ok base =>
  match validate_amount_positive amount with
  | .error e => ([], .error e)
  | .ok amt =>
  match load_user_portfolio pfFile user_id with
  | .error e => ([], .error e)
  | .ok wallets =>
  match alget wallets code with
  | none => ([], .error (.noWallet code))
  | some before =>
  if amt > before then ([], .error (.insufficientFunds before amt code))
  else
  let after := before - amt
  match save_user_wallet_balance pfFile user_id code after with
  | .error e => ([], .error e)
  | .ok pf1 =>
  match get_rate ratesFile code base with
  | .error _ => ([pf1], .error (.rateFetchFailed code base))
  | .ok rate =>
  let revenue := amt * rate
  if code ≠ base then
    let base_before := (alget wallets base).getD 0
    match save_user_wallet_balance pf1 user_id base
        (base_before + revenue) with
    | .error e => ([pf1], .error e)
    | .ok pf2 =>
        ([pf1, pf2], .ok
          { currency := code, amount := amt, base := base, rate := rate,
            before := before, after := after, revenue := revenue })
  else
    ([pf1], .ok
      { currency := code, amount := amt, base := base, rate := rate,
        before := before, after := after, revenue := revenue })

/-! ## Concrete stores used by the claim checks -/

/-- A wallet payload `{"balance": b}`. -/
def walletObj (b : ℚ) : Json := .obj [("balance", .num b)]

/-- A portfolio store with a single user record holding two wallets. -/
def pfStore2 (uid : Int) (c1 : String) (b1 : ℚ) (c2 : String) (b2 : ℚ) :
    Json :=
  .arr [.obj [("user_id", .num (uid : ℚ)),
    ("wallets", .obj [(c1, walletObj b1), (c2, walletObj b2)])]]

/-- Portfolio store: user 1 holding 10 EUR. -/
def demoPortfolio : Json :=
  .arr [.obj [("user_id", .num 1), ("wallets", .obj [("EUR", walletObj 10)])]]

/-- The snapshot upsert_snapshot_pair writes for EUR_USD = 1.10. -/
def c1Snap : Json :=
  writtenSnapshot [("EUR_USD", pairEntry (11/10) "2025-01-01T00:00:00" "ecb")]
    "2025-01-01T00:00:00"

/-- What get_rate_with_cache writes back over `c1Snap` (flat pair entry
next to the untouched "pairs" subtree). -/
def c1Refreshed : Json :=
  refreshedRates
    [("pairs", .obj [("EUR_USD", pairEntry (11/10) "2025-01-01T00:00:00"
        "ecb")]),
     ("last_refresh", .str "2025-01-01T00:00:00")]
    "EUR_USD" (107/100) "2025-01-01T00:00:05"

/-- demoPortfolio after the sell debit only (EUR 10 → 6, no USD yet). -/
def c2Debited : Json :=
  .arr [.obj [("user_id", .num 1), ("wallets", .obj [("EUR", walletObj 6)])]]

/-- demoPortfolio after both sell writes (EUR 6, USD 4·1.07 = 4.28). -/
def c2Final : Json :=
  .arr [.obj [("user_id", .num 1),
    ("wallets", .obj [("EUR", walletObj 6), ("USD", walletObj (107/25))])]]

/-- demoPortfolio after the buy deposit of 5 XYZ was persisted. -/
def c7Deposited : Json :=
  .arr [.obj [("user_id", .num 1),
    ("wallets", .obj [("EUR", walletObj 10), ("XYZ", walletObj 5)])]]

/-- Scenario D portfolio store: user 7 holding 100 USD. -/
def scenDPortfolio : Json :=
  .arr [.obj [("user_id", .num 7), ("wallets", .obj [("USD", walletObj 100)])]]

/-- A rates.json holding only the (flat) reverse pair EUR_USD = 1.10. -/
def c5Cache : Json :=
  .obj [("EUR_USD", .obj [("rate", .num (11/10)),
    ("updated_at", .str "2025-06-01T12:00:00")])]

/-- A rates.json holding a fresh flat USD_USD entry with rate 2. -/
def c8Cache : Json :=
  .obj [("USD_USD", .obj [("rate", .num 2),
    ("updated_at", .str "2025-07-01T00:00:00")])]

/-- Snapshot whose BTC_USD entry carries an updated_at string greater
than the run's refresh timestamp (so upsert is a no-op). -/
def c6File : Json :=
  writtenSnapshot [("BTC_USD", pairEntry 50000 "2999-01-01T00:00:00Z" "old")]
    "2999-01-01T00:00:00Z"

/-- One source returning BTC_USD = 60000. -/
def c6Clients : List (String × Except String (List (String × ℚ))) :=
  [("src", .ok [("BTC_USD", 60000)])]

/-- The combined map the c6 run builds. -/
def c6Combined : List (String × Json) :=
  [("BTC_USD", .obj [("rate", .num 60000),
    ("updated_at", .str "2024-01-01T00:00:00Z"), ("source", .str "src")])]

/-- The per-source metadata of the c6 run. -/
def c6Meta : List (String × SourceMeta) :=
  [("src", { ok := true, errorMsg := none, count := 1 })]

/-! ## Claim checks -/

/-- C1: the claim says a pair committed by upsert_snapshot_pair (stored
under the "pairs" key), fresh and positive, is found by
get_rate_with_cache's direct-lookup step and returned with
reverseRate = 1/rate.  In fact the resolver reads the flat top-level
key of rates.json, so the committed EUR_USD = 1.10 entry - although
fresh at query time - is never found: the call falls back to the
hard-coded stub and returns 1.07 (and pollutes the snapshot with a
flat entry).  This contradicts storage.py's own claim of writing the
"Core Service format". -/
theorem c1_upsert_invisible_to_direct_lookup :
    upsert_snapshot_pair none "EUR_USD" (11/10) "2025-01-01T00:00:00" "ecb"
      = .ok (true, some c1Snap)
    ∧ is_fresh ((parse_iso_dt "2025-01-01T00:00:05").getD 0)
        "2025-01-01T00:00:00" 300 = true
    ∧ get_rate_with_cache ((parse_iso_dt "2025-01-01T00:00:05").getD 0)
        "2025-01-01T00:00:05" c1Snap "EUR" "USD" 300
      = .ok ([c1Refreshed],
          { fromCode := "EUR", toCode := "USD", rate := 107/100,
            updated_at := "2025-01-01T00:00:05",
            reverse_rate := 100/107 })
    ∧ (107 : ℚ)/100 ≠ 11/10 :=
  ⟨by with_unfolding_all rfl, by with_unfolding_all rfl,
   by with_unfolding_all rfl, by with_unfolding_all decide⟩

/-- C2 counterexample: a sell of 4 EUR against a 10-EUR wallet (base
USD, stub rate 1.07) performs TWO separate persisted store writes, not
one: the first write holds only the debit (EUR 6, no USD wallet yet),
so an intermediate state with only the debit applied is persisted. -/
theorem c2_sell_two_writes_counterexample :
    sell_currency (.obj []) demoPortfolio 1 "EUR" 4 "USD"
      = ([c2Debited, c2Final],
         .ok { currency := "EUR", amount := 4, base := "USD",
               rate := 107/100, before := 10, after := 6,
               revenue := 107/25 })
    ∧ (sell_currency (.obj []) demoPortfolio 1 "EUR" 4 "USD").1.length ≠ 1
    ∧ load_user_portfolio c2Debited 1 = .ok [("EUR", 6)] :=
  ⟨by with_unfolding_all rfl, by with_unfolding_all decide,
   by with_unfolding_all rfl⟩

/-- C3 counterexample: with an empty cache (no fresh direct or reverse
entry for RUB→USD), get_rate_with_cache does not fail: it answers from
the hard-coded stub table (0.01016) and writes the refreshed entry back
to the snapshot.  There is no StaleOrMissingRate failure anywhere. -/
theorem c3_stub_fallback_counterexample :
    get_rate_with_cache 0 "2025-01-02T00:00:00" (.obj []) "RUB" "USD" 300
      = .ok ([refreshedRates [] "RUB_USD" (127/12500) "2025-01-02T00:00:00"],
          { fromCode := "RUB", toCode := "USD", rate := 127/12500,
            updated_at := "2025-01-02T00:00:00",
            reverse_rate := 12500/127 }) := by
  with_unfolding_all rfl

/-- C4 counterexample: a get_rate_with_cache call on a cache miss
writes the refreshed snapshot back to the rates store - the resolver is
not read-only. -/
theorem c4_resolver_writes_counterexample :
    get_rate_with_cache 0 "2026-01-01T00:00:00" (.obj []) "ETH" "USD" 300
      = .ok ([refreshedRates [] "ETH_USD" 3720 "2026-01-01T00:00:00"],
          { fromCode := "ETH", toCode := "USD", rate := 3720,
            updated_at := "2026-01-01T00:00:00",
            reverse_rate := 1/3720 })
    ∧ refreshedRates [] "ETH_USD" 3720 "2026-01-01T00:00:00" ≠ .obj [] :=
  ⟨by with_unfolding_all rfl, by simp [refreshedRates, alset]⟩

/-- C5 counterexample (Scenario B): with only the reverse pair
EUR_USD = 1.10 cached (and fresh), getRate(USD, EUR) does not return
1/1.10 ≈ 0.9091 with reverseRate = 1.10: there is no reverse-pair
lookup, so the call falls back to the stub table and returns
100/107 ≈ 0.9346 with reverseRate = 1.07. -/
theorem c5_no_reverse_lookup_counterexample :
    is_fresh ((parse_iso_dt "2025-06-01T12:00:10").getD 0)
      "2025-06-01T12:00:00" 300 = true
    ∧ get_rate_with_cache ((parse_iso_dt "2025-06-01T12:00:10").getD 0)
        "2025-06-01T12:00:10" c5Cache "USD" "EUR" 300
      = .ok ([refreshedRates
            [("EUR_USD", .obj [("rate", .num (11/10)),
              ("updated_at", .str "2025-06-01T12:00:00")])]
            "USD_EUR" (100/107) "2025-06-01T12:00:10"],
          { fromCode := "USD", toCode := "EUR", rate := 100/107,
            updated_at := "2025-06-01T12:00:10",
            reverse_rate := 107/100 })
    ∧ (100 : ℚ)/107 ≠ 1/(11/10)
    ∧ (107 : ℚ)/100 ≠ 11/10 :=
  ⟨by with_unfolding_all rfl, by with_unfolding_all rfl,
   by with_unfolding_all decide, by with_unfolding_all decide⟩

/-- C6 counterexample: one source returns BTC_USD = 60000 under refresh
timestamp 2024-01-01, while the stored snapshot already holds BTC_USD
with a strictly newer updated_at (2999-01-01), so
upsert_snapshot_pair changes nothing (write_cache counts 0 and the
file is unchanged) - yet run_update reports `updated = 1`
(= len(combined)), because the changed-count returned by write_cache
is discarded. -/
theorem c6_updated_count_counterexample :
    run_update (some c6File) c6Clients "2024-01-01T00:00:00Z"
      = .ok ({ updated := 1, last_refresh := "2024-01-01T00:00:00Z",
               sources := c6Meta, had_errors := false }, some c6File)
    ∧ run_update_scan c6Clients "2024-01-01T00:00:00Z"
      = (c6Combined, c6Meta, false)
    ∧ write_cache (some c6File)
        (run_update_payload c6Combined c6Meta "2024-01-01T00:00:00Z")
      = .ok (0, some c6File)
    ∧ (1 : Nat) ≠ 0 :=
  ⟨by with_unfolding_all rfl, by with_unfolding_all rfl,
   by with_unfolding_all rfl, by decide⟩

/-- C7 counterexample: buy of an unknown currency XYZ persists the
deposit BEFORE resolving the rate; the rate failure is then wrapped in
a ValueError, but the portfolio store was already modified (user 1 now
holds 5 XYZ). -/
theorem c7_buy_persists_before_rate_counterexample :
    buy_currency (.obj []) demoPortfolio 1 "XYZ" 5 "USD"
      = ([c7Deposited], .error (.rateFetchFailed "XYZ" "USD"))
    ∧ load_user_portfolio c7Deposited 1 = .ok [("EUR", 10), ("XYZ", 5)]
    ∧ load_user_portfolio demoPortfolio 1 = .ok [("EUR", 10)]
    ∧ ([("EUR", (10 : ℚ)), ("XYZ", 5)] ≠ [("EUR", (10 : ℚ))]) :=
  ⟨by with_unfolding_all rfl, by with_unfolding_all rfl,
   by with_unfolding_all rfl, by with_unfolding_all decide⟩

/-- C8 counterexample: get_rate_with_cache has no from == to
short-circuit: it consults the cache first, so a fresh cached USD_USD
entry with rate 2 is returned as-is instead of 1.0. -/
theorem c8_identity_consults_cache_counterexample :
    get_rate_with_cache ((parse_iso_dt "2025-07-01T00:00:00").getD 0)
      "2025-07-01T00:00:00" c8Cache "USD" "USD" 300
      = .ok ([], { fromCode := "USD", toCode := "USD", rate := 2,
                   updated_at := "2025-07-01T00:00:00",
                   reverse_rate := 1/2 })
    ∧ (2 : ℚ) ≠ 1 :=
  ⟨by with_unfolding_all rfl, by with_unfolding_all decide⟩

/-- C10: whenever the requested amount exceeds the code wallet's
balance, sell_currency raises InsufficientFunds carrying the available
balance, the required amount and the currency code, and performs no
store write at all (the persisted-write trace is empty, so the wallet
and the store file are untouched). -/
theorem c10_sell_insufficient_funds_no_write (ratesFile pfFile : Json)
    (uid : Int) (currency_code base_currency : String) (amount : ℚ)
    (code base : String) (amt bal : ℚ) (wallets : List (String × ℚ))
    (hc : normalize_currency_code currency_code = .ok code)
    (hb : normalize_currency_code base_currency = .ok base)
    (ha : validate_amount_positive amount = .ok amt)
    (hw : load_user_portfolio pfFile uid = .ok wallets)
    (hbal : alget wallets code = some bal)
    (hlt : bal < amt) :
    sell_currency ratesFile pfFile uid currency_code amount base_currency
      = ([], .error (.insufficientFunds bal amt code)) := by
  simp [sell_currency, hc, hb, ha, hw, hbal, hlt]

/-- C10 witness (Scenario D): user 7 holds 100 USD;
sell(code="USD", amount=150, base="USD") fails with
InsufficientFunds(available=100, required=150, code="USD") and the
store is not written. -/
theorem c10_witness :
    sell_currency (.obj []) scenDPortfolio 7 "USD" 150 "USD"
      = ([], .error (.insufficientFunds 100 150 "USD")) :=
  c10_sell_insufficient_funds_no_write (.obj []) scenDPortfolio 7
    "USD" "USD" 150 "USD" "USD" 150 100 [("USD", 100)]
    (by with_unfolding_all rfl) (by with_unfolding_all rfl)
    (by with_unfolding_all rfl) (by with_unfolding_all rfl)
    (by with_unfolding_all rfl) (by norm_num)

/-- C3 amended: when the flat direct entry is not a fresh valid one,
get_rate_with_cache does not fail with a staleness error: it falls back
to _get_rate (the flat cached pair ignoring freshness, else the
hard-coded stub table), returns that rate, and writes the refreshed
snapshot; the only failures are the fallback's own
CurrencyNotFound/ApiRequest errors. -/
theorem c3_stub_fallback (now : Int) (nowStr : String) (ratesFile : Json)
    (rates : List (String × Json)) (from_code to_code f t : String)
    (max_age_seconds : Int) (r : ℚ)
    (hf : normalize_currency_code from_code = .ok f)
    (ht : normalize_currency_code to_code = .ok t)
    (hload : load_rates ratesFile = .ok rates)
    (hmiss : cachedFresh now max_age_seconds (alget rates (f ++ "_" ++ t))
      = none)
    (hfb : get_rate ratesFile f t = .ok r) :
    get_rate_with_cache now nowStr ratesFile from_code to_code
      max_age_seconds
      = .ok ([refreshedRates rates (f ++ "_" ++ t) r nowStr],
          { fromCode := f, toCode := t, rate := r, updated_at := nowStr,
            reverse_rate := if r ≠ 0 then 1 / r else 0 }) := by
  simp [get_rate_with_cache, hf, ht, hload, hmiss, hfb]

/-- C3 amended witness: empty cache, BTC→USD answered from the stub
table (59337.21) and written back. -/
theorem c3_witness :
    get_rate_with_cache 5 "2025-03-01T00:00:00" (.obj []) "BTC" "USD" 300
      = .ok ([refreshedRates [] "BTC_USD" (5933721/100)
            "2025-03-01T00:00:00"],
          { fromCode := "BTC", toCode := "USD", rate := 5933721/100,
            updated_at := "2025-03-01T00:00:00",
            reverse_rate := if (5933721/100 : ℚ) ≠ 0
              then 1 / (5933721/100 : ℚ) else 0 }) :=
  c3_stub_fallback 5 "2025-03-01T00:00:00" (.obj []) [] "BTC" "USD"
    "BTC" "USD" 300 (5933721/100)
    (by with_unfolding_all rfl) (by with_unfolding_all rfl)
    (by with_unfolding_all rfl) (by with_unfolding_all rfl)
    (by with_unfolding_all rfl)

/-- C4 amended: get_rate_with_cache leaves the persisted rate snapshot
unchanged exactly on the paths that do not refresh: when it answers
from a fresh valid cached direct entry the persisted-write trace is
empty (and a failure performs no write either); on a successful
fallback it writes the refreshed snapshot (see the counterexample), so
the resolver is not read-only in general. -/
theorem c4_cache_hit_no_write (now : Int) (nowStr : String)
    (ratesFile : Json) (rates : List (String × Json))
    (from_code to_code f t : String) (max_age_seconds : Int)
    (q : ℚ) (u : String)
    (hf : normalize_currency_code from_code = .ok f)
    (ht : normalize_currency_code to_code = .ok t)
    (hload : load_rates ratesFile = .ok rates)
    (hhit : cachedFresh now max_age_seconds (alget rates (f ++ "_" ++ t))
      = some (q, u)) :
    get_rate_with_cache now nowStr ratesFile from_code to_code
      max_age_seconds
      = .ok ([], { fromCode := f, toCode := t, rate := q, updated_at := u,
                   reverse_rate := 1 / q }) := by
  simp [get_rate_with_cache, hf, ht, hload, hhit]

/-- C4 amended witness: a fresh valid cached EUR_USD entry is answered
without any store write. -/
theorem c4_witness :
    get_rate_with_cache ((parse_iso_dt "2025-06-01T12:00:10").getD 0)
      "2025-06-01T12:00:10" c5Cache "EUR" "USD" 300
      = .ok ([], { fromCode := "EUR", toCode := "USD", rate := 11/10,
                   updated_at := "2025-06-01T12:00:00",
                   reverse_rate := 1 / (11/10) }) :=
  c4_cache_hit_no_write ((parse_iso_dt "2025-06-01T12:00:10").getD 0)
    "2025-06-01T12:00:10" c5Cache
    [("EUR_USD", .obj [("rate", .num (11/10)),
      ("updated_at", .str "2025-06-01T12:00:00")])]
    "EUR" "USD" "EUR" "USD" 300 (11/10) "2025-06-01T12:00:00"
    (by with_unfolding_all rfl) (by with_unfolding_all rfl)
    (by with_unfolding_all rfl) (by with_unfolding_all rfl)

/-- C7 amended: when the rate for code→base cannot be resolved,
buy_currency does fail with a (wrapped) ValueError, but only after the
deposit was persisted: the write trace contains exactly the store state
with the increased balance. -/
theorem c7_buy_persists_before_rate (ratesFile pfFile : Json) (uid : Int)
    (currency_code base_currency : String) (amount : ℚ)
    (code base : String) (amt : ℚ) (wallets : List (String × ℚ))
    (pf1 : Json) (e : Err)
    (hc : normalize_currency_code currency_code = .ok code)
    (hb : normalize_currency_code base_currency = .ok base)
    (ha : validate_amount_positive amount = .ok amt)
    (hw : load_user_portfolio pfFile uid = .ok wallets)
    (hsave : save_user_wallet_balance pfFile uid code
      ((alget wallets code).getD 0 + amt) = .ok pf1)
    (hrate : get_rate ratesFile code base = .error e) :
    buy_currency ratesFile pfFile uid currency_code amount base_currency
      = ([pf1], .error (.rateFetchFailed code base)) := by
  simp [buy_currency, hc, hb, ha, hw, hsave, hrate]

/-- C7 amended witness: user 1 buys 5 XYZ (unknown to the stub): the
deposit is persisted, then the rate failure surfaces. -/
theorem c7_witness :
    buy_currency (.obj []) demoPortfolio 1 "xyz" 5 "USD"
      = ([c7Deposited], .error (.rateFetchFailed "XYZ" "USD")) :=
  c7_buy_persists_before_rate (.obj []) demoPortfolio 1 "xyz" "USD" 5
    "XYZ" "USD" 5 [("EUR", 10)] c7Deposited (.currencyNotFound "XYZ")
    (by with_unfolding_all rfl) (by with_unfolding_all rfl)
    (by with_unfolding_all rfl) (by with_unfolding_all rfl)
    (by with_unfolding_all rfl) (by with_unfolding_all rfl)

/-- C5 amended: there is no reverse-pair lookup step.  With only the
reverse pair EUR_USD cached - whatever its rate and timestamp, fresh or
not - getRate(USD, EUR) never consults it: it always misses the direct
key USD_EUR, falls back to the stub table, and returns 100/107 with
reverseRate = 107/100, writing the refreshed flat USD_EUR entry. -/
theorem c5_reverse_entry_never_consulted (r : ℚ) (u : String) (now : Int)
    (nowStr : String) (max_age_seconds : Int) :
    get_rate_with_cache now nowStr
      (.obj [("EUR_USD", .obj [("rate", .num r), ("updated_at", .str u)])])
      "USD" "EUR" max_age_seconds
      = .ok ([refreshedRates
            [("EUR_USD", .obj [("rate", .num r), ("updated_at", .str u)])]
            "USD_EUR" (100/107) nowStr],
          { fromCode := "USD", toCode := "EUR", rate := 100/107,
            updated_at := nowStr, reverse_rate := 107/100 }) := by
  with_unfolding_all rfl

/-- C8 amended: _get_rate does return 1.0 for X→X immediately, without
consulting the rates store (it holds for an arbitrary, even malformed,
store value); but get_rate_with_cache consults the cache first even
when from == to, so the 1.0 answer is only guaranteed when the cache
holds no fresh valid X_X entry (a fresh cached X_X entry is returned
as-is - see the counterexample). -/
theorem c8_identity_rate :
    (∀ (ratesFile : Json) (x : String),
      normalize_currency_code x = .ok x →
      get_rate ratesFile x x = .ok 1)
    ∧ (∀ (now : Int) (nowStr : String) (ratesFile : Json)
        (rates : List (String × Json)) (x : String)
        (max_age_seconds : Int),
        normalize_currency_code x = .ok x →
        load_rates ratesFile = .ok rates →
        cachedFresh now max_age_seconds (alget rates (x ++ "_" ++ x))
          = none →
        get_rate_with_cache now nowStr ratesFile x x max_age_seconds
          = .ok ([refreshedRates rates (x ++ "_" ++ x) 1 nowStr],
              { fromCode := x, toCode := x, rate := 1,
                updated_at := nowStr, reverse_rate := 1 })) := by
  constructor
  · intro ratesFile x hx
    simp [get_rate, hx]
  · intro now nowStr ratesFile rates x max_age_seconds hx hload hmiss
    have h1 : get_rate ratesFile x x = .ok 1 := by simp [get_rate, hx]
    simp [get_rate_with_cache, hx, hload, hmiss, h1]

/-- C8 amended witness: _get_rate answers USD→USD with 1.0 even on a
malformed store; get_rate_with_cache answers 1.0 on an empty cache and
writes the USD_USD entry. -/
theorem c8_witness :
    get_rate Json.null "USD" "USD" = .ok 1
    ∧ get_rate_with_cache 0 "2025-08-01T00:00:00" (.obj []) "USD" "USD"
        300
      = .ok ([refreshedRates [] "USD_USD" 1 "2025-08-01T00:00:00"],
          { fromCode := "USD", toCode := "USD", rate := 1,
            updated_at := "2025-08-01T00:00:00", reverse_rate := 1 }) :=
  ⟨c8_identity_rate.1 Json.null "USD" (by with_unfolding_all rfl),
   c8_identity_rate.2 0 "2025-08-01T00:00:00" (.obj []) [] "USD" 300
     (by with_unfolding_all rfl) (by with_unfolding_all rfl)
     (by with_unfolding_all rfl)⟩

/-- C6 amended: the `updated` field of a successful run_update equals
the number of combined pairs submitted to the cache (len(combined)),
regardless of how many upserts actually changed the snapshot - the
changed-count that write_cache returns is discarded. -/
theorem c6_updated_is_combined_length (file : Option Json)
    (clients : List (String × Except String (List (String × ℚ))))
    (refresh_ts : String) (r : UpdateResult) (newFile : Option Json)
    (h : run_update file clients refresh_ts = .ok (r, newFile)) :
    r.updated = (run_update_scan clients refresh_ts).1.length := by
  unfold run_update at h
  rcases hs : run_update_scan clients refresh_ts with ⟨combined, meta, he⟩
  rw [hs] at h
  by_cases hempty : combined.isEmpty
  · simp [hempty] at h
  · simp only [hempty, Bool.false_eq_true, if_false, ite_false] at h
    rcases hw : write_cache file (run_update_payload combined meta
        refresh_ts) with e | p
    · rw [hw] at h; simp at h
    · rw [hw] at h
      rcases p with ⟨cnt, nf⟩
      simp only [Except.ok.injEq, Prod.mk.injEq] at h
      rw [← h.1]

/-- C6 amended witness: a run over one source delivering one pair into
an empty store reports updated = 1 = len(combined). -/
theorem c6_witness :
    ({ updated := 1, last_refresh := "2024-02-02T00:00:00Z",
       sources := [("s", { ok := true, errorMsg := none, count := 1 })],
       had_errors := false } : UpdateResult).updated
      = (run_update_scan [("s", .ok [("ETH_USD", 3000)])]
          "2024-02-02T00:00:00Z").1.length :=
  c6_updated_is_combined_length none [("s", .ok [("ETH_USD", 3000)])]
    "2024-02-02T00:00:00Z"
    { updated := 1, last_refresh := "2024-02-02T00:00:00Z",
      sources := [("s", { ok := true, errorMsg := none, count := 1 })],
      had_errors := false }
    (some (writtenSnapshot
      [("ETH_USD", pairEntry 3000 "2024-02-02T00:00:00Z" "s")]
      "2024-02-02T00:00:00Z"))
    (by with_unfolding_all rfl)

/-- `int()` of an integer-valued user_id field is the integer itself. -/
theorem pyInt_intCast (n : Int) : pyInt (.num (n : ℚ)) = .ok n := by
  simp [pyInt, Rat.num_intCast, Rat.den_intCast, Int.tdiv_one]

/-- Loading a two-wallet single-user store yields the two balances. -/
theorem load_pfStore2 (uid : Int) (c1 c2 : String) (b1 b2 : ℚ)
    (h1 : normalize_currency_code c1 = .ok c1)
    (h2 : normalize_currency_code c2 = .ok c2)
    (hne : c1 ≠ c2) :
    load_user_portfolio (pfStore2 uid c1 b1 c2 b2) uid
      = .ok [(c1, b1), (c2, b2)] := by
  simp [load_user_portfolio, pfStore2, load_portfolios, findRecord,
    recordUserId, alget, pyInt_intCast, load_wallets, walletObj,
    h1, h2, alset, hne]

/-- Saving the first wallet of a two-wallet single-user store. -/
theorem save_pfStore2_fst (uid : Int) (c1 c2 : String) (b1 b2 v : ℚ)
    (h1 : normalize_currency_code c1 = .ok c1) :
    save_user_wallet_balance (pfStore2 uid c1 b1 c2 b2) uid c1 v
      = .ok (pfStore2 uid c1 v c2 b2) := by
  simp [save_user_wallet_balance, pfStore2, load_portfolios,
    save_records, recordUserId, alget, pyInt_intCast, walletObj,
    h1, alset]

/-- Saving the second wallet of a two-wallet single-user store. -/
theorem save_pfStore2_snd (uid : Int) (c1 c2 : String) (b1 b2 v : ℚ)
    (h2 : normalize_currency_code c2 = .ok c2)
    (hne : c1 ≠ c2) :
    save_user_wallet_balance (pfStore2 uid c1 b1 c2 b2) uid c2 v
      = .ok (pfStore2 uid c1 b1 c2 v) := by
  simp [save_user_wallet_balance, pfStore2, load_portfolios,
    save_records, recordUserId, alget, pyInt_intCast, walletObj,
    h2, alset, hne]

/-- C2 amended: for every user and balances, a sell of `code != base`
with sufficient balance changes exactly the two wallets the claim names
(code debited by amount, base credited by amount·rate) - but the two
changes are persisted in TWO successive store writes, not one: the
first persisted state carries only the debit, the second adds the
credit. -/
theorem c2_sell_two_phase (ratesFile : Json) (uid : Int)
    (code base : String) (b1 b2 amt r : ℚ)
    (hcode : normalize_currency_code code = .ok code)
    (hbase : normalize_currency_code base = .ok base)
    (hne : code ≠ base)
    (hamt : 0 < amt) (hsuff : amt ≤ b1)
    (hrate : get_rate ratesFile code base = .ok r) :
    sell_currency ratesFile (pfStore2 uid code b1 base b2) uid code amt
      base
      = ([pfStore2 uid code (b1 - amt) base b2,
          pfStore2 uid code (b1 - amt) base (b2 + amt * r)],
         .ok { currency := code, amount := amt, base := base, rate := r,
               before := b1, after := b1 - amt, revenue := amt * r }) := by
  have hv : validate_amount_positive amt = .ok amt := by
    simp [validate_amount_positive, not_le.mpr hamt]
  have hload := load_pfStore2 uid code base b1 b2 hcode hbase hne
  have hgt : ¬ amt > b1 := not_lt.mpr hsuff
  have hs1 := save_pfStore2_fst uid code base b1 b2 (b1 - amt) hcode
  have hs2 := save_pfStore2_snd uid code base (b1 - amt) b2
    (b2 + amt * r) hbase hne
  simp [sell_currency, hcode, hbase, hv, hload, alget, hgt, hs1, hrate,
    hne, hs2]

/-- C2 amended witness: selling 4 EUR from wallets (EUR 10, USD 3)
against the stub rate 1.07 persists (EUR 6, USD 3) first, then
(EUR 6, USD 3 + 4·1.07). -/
theorem c2_witness :
    sell_currency (.obj []) (pfStore2 1 "EUR" 10 "USD" 3) 1 "EUR" 4 "USD"
      = ([pfStore2 1 "EUR" (10 - 4) "USD" 3,
          pfStore2 1 "EUR" (10 - 4) "USD" (3 + 4 * (107/100))],
         .ok { currency := "EUR", amount := 4, base := "USD",
               rate := 107/100, before := 10, after := 10 - 4,
               revenue := 4 * (107/100) }) :=
  c2_sell_two_phase (.obj []) 1 "EUR" "USD" 10 3 4 (107/100)
    (by with_unfolding_all rfl) (by with_unfolding_all rfl)
    (by decide) (by norm_num) (by norm_num)
    (by with_unfolding_all rfl)

/-- C9: upsert_snapshot_pair on a loadable snapshot with validated
inputs writes the pair and returns True when it is absent; when present
(with a well-formed stored entry) it replaces the entry and returns
True exactly when updated_at is strictly newer in Python string order
than the stored updated_at, and otherwise performs no write and returns
False - so an upsert at an earlier-or-equal timestamp leaves the stored
rate in place. -/
theorem c9_upsert_newer_wins (file : Option Json) (snap : Snapshot)
    (pair : String) (rate : ℚ) (updated_at source : String)
    (hload : load_snapshot file = .ok snap)
    (hrate : 0 < rate) (hupd : pyStrip updated_at ≠ "")
    (hsrc : pyStrip source ≠ "") :
    (alget snap.pairs pair = none →
      upsert_snapshot_pair file pair rate updated_at source
        = .ok (true, some (writtenSnapshot
            (alset snap.pairs pair (pairEntry rate updated_at source))
            updated_at)))
    ∧ (∀ okvs old_updated,
        alget snap.pairs pair = some (.obj okvs) →
        alget okvs "updated_at" = some (.str old_updated) →
        (pyStrLt old_updated updated_at = true →
          upsert_snapshot_pair file pair rate updated_at source
            = .ok (true, some (writtenSnapshot
                (alset snap.pairs pair (pairEntry rate updated_at source))
                updated_at)))
        ∧ (pyStrLt old_updated updated_at = false →
          upsert_snapshot_pair file pair rate updated_at source
            = .ok (false, none))) := by
  refine ⟨fun habs => ?_, fun okvs old_updated hpair hold => ⟨?_, ?_⟩⟩
  · simp [upsert_snapshot_pair, hload, hrate, hupd, hsrc, habs]
  · intro hlt
    simp [upsert_snapshot_pair, hload, hrate, hupd, hsrc, hpair, hold,
      hlt]
  · intro hge
    simp [upsert_snapshot_pair, hload, hrate, hupd, hsrc, hpair, hold,
      hge]

/-- C9 witness (Scenario A): upsert BTC_USD = 50000 at t1 into an empty
snapshot writes it (changed = True); upserting 51000 at the earlier t0
is a no-op (changed = False), leaving the stored 50000 in place. -/
theorem c9_witness :
    upsert_snapshot_pair none "BTC_USD" 50000 "2024-01-01T00:00:00Z"
      "src"
      = .ok (true, some (writtenSnapshot
          [("BTC_USD", pairEntry 50000 "2024-01-01T00:00:00Z" "src")]
          "2024-01-01T00:00:00Z"))
    ∧ upsert_snapshot_pair
        (some (writtenSnapshot
          [("BTC_USD", pairEntry 50000 "2024-01-01T00:00:00Z" "src")]
          "2024-01-01T00:00:00Z"))
        "BTC_USD" 51000 "2023-12-31T00:00:00Z" "src"
      = .ok (false, none) :=
  ⟨(c9_upsert_newer_wins none { pairs := [], last_refresh := none }
      "BTC_USD" 50000 "2024-01-01T00:00:00Z" "src"
      (by with_unfolding_all rfl) (by norm_num)
      (by with_unfolding_all decide) (by with_unfolding_all decide)).1
    rfl,
   ((c9_upsert_newer_wins
      (some (writtenSnapshot
        [("BTC_USD", pairEntry 50000 "2024-01-01T00:00:00Z" "src")]
        "2024-01-01T00:00:00Z"))
      { pairs := [("BTC_USD",
          pairEntry 50000 "2024-01-01T00:00:00Z" "src")],
        last_refresh := some "2024-01-01T00:00:00Z" }
      "BTC_USD" 51000 "2023-12-31T00:00:00Z" "src"
      (by with_unfolding_all rfl) (by norm_num)
      (by with_unfolding_all decide) (by with_unfolding_all decide)).2
    [("rate", .num 50000), ("updated_at", .str "2024-01-01T00:00:00Z"),
     ("source", .str "src")]
    "2024-01-01T00:00:00Z" rfl rfl).2 (by with_unfolding_all rfl)⟩

end ValutaTrade
